import Mathlib

/-!
Shallow embedding of the `magic-prompt` command-line tool
(`src/magic_prompt/config.py`, `src/magic_prompt/groq_client.py`,
`src/magic_prompt/cli.py`) together with theorems settling the claims
about its specification.

External collaborators (the Groq SDK transport, the filesystem, the
scanner/enricher modules that are not part of the provided sources, the
clipboard subprocess) are modelled as explicit inputs: the embedding of
each repository function is a pure function of those inputs that mirrors
the Python control flow line by line.
-/

namespace MagicPrompt

/-! ## JSON values and Python-dict operations

`config.py` persists a flat JSON object (a Python dict).  We model JSON
values with a scalar-level inductive (the configuration documents written
by this program only ever hold strings and integers) and a dict as an
association list.  `dictSet` mirrors `d[k] = v` (replace the existing
binding in place, else append), `dictPop` mirrors `d.pop(k, None)` and
`dictGet` mirrors `d.get(k)`. -/

inductive JVal where
  | jnull
  | jbool (b : Bool)
  | jnum (n : Int)
  | jstr (s : String)

abbrev Dict := List (String × JVal)

def dictGet : Dict → String → Option JVal
  | [], _ => none
  | p :: ps, k => if p.1 = k then some p.2 else dictGet ps k

def dictSet : Dict → String → JVal → Dict
  | [], k, v => [(k, v)]
  | p :: ps, k, v => if p.1 = k then (k, v) :: ps else p :: dictSet ps k v

def dictPop : Dict → String → Dict
  | [], _ => []
  | p :: ps, k => if p.1 = k then ps else p :: dictPop ps k

theorem dictGet_dictSet_self (d : Dict) (k : String) (v : JVal) :
    dictGet (dictSet d k v) k = some v := by
  induction d with
  | nil => simp [dictSet, dictGet]
  | cons p ps ih =>
    by_cases h : p.1 = k
    · simp [dictSet, dictGet, h]
    · simp [dictSet, dictGet, h, ih]

theorem dictGet_dictSet_ne (d : Dict) (k k' : String) (v : JVal) (h : k ≠ k') :
    dictGet (dictSet d k' v) k = dictGet d k := by
  have h' : ¬(k' = k) := fun hk => h hk.symm
  induction d with
  | nil => simp [dictSet, dictGet, h']
  | cons p ps ih =>
    by_cases hp : p.1 = k'
    · simp [dictSet, dictGet, hp, h']
    · simp only [dictSet, hp, if_false, dictGet]
      by_cases hk : p.1 = k
      · simp [hk]
      · simp [hk, ih]

theorem dictGet_dictPop_ne (d : Dict) (k k' : String) (h : k ≠ k') :
    dictGet (dictPop d k') k = dictGet d k := by
  have h' : ¬(k' = k) := fun hk => h hk.symm
  induction d with
  | nil => simp [dictPop]
  | cons p ps ih =>
    by_cases hp : p.1 = k'
    · simp [dictPop, dictGet, hp, h']
    · simp only [dictPop, hp, if_false, dictGet]
      by_cases hk : p.1 = k
      · simp [hk]
      · simp [hk, ih]

/-! ## The configuration store (`config.py`)

The on-disk state of `config.json` is one of: the file is missing; the
file exists but opening/reading it raises `OSError`; the file's bytes do
not decode as UTF-8 (so `json.load` raises `UnicodeDecodeError`, which is
a `ValueError` but neither a `json.JSONDecodeError` nor an `OSError`);
the file decodes but is not valid JSON (`json.JSONDecodeError`); or the
file holds a JSON object.  Valid-JSON non-object documents never arise
from this program (`save_config` always writes an object) and no claim
concerns them, so they are outside the modelled state space.

Exceptions a function lets escape to its caller are modelled with
`Except`. -/

inductive PyError where
  | unicodeDecodeError
  | typeError
deriving DecidableEq

inductive FileState where
  | missing
  | unreadable
  | notUtf8
  | invalidJson
  | jsonDict (cfg : Dict)

/-- `load_config` (config.py lines 27-36): `if config_path.exists()` then
`json.load` guarded by `except (json.JSONDecodeError, OSError): return {}`,
else `{}`.  A `UnicodeDecodeError` raised by `json.load` on non-UTF-8
bytes matches neither clause of the `except` tuple, so it propagates. -/
def load_config : FileState → Except PyError Dict
  | .missing => .ok []
  | .unreadable => .ok []
  | .notUtf8 => .error .unicodeDecodeError
  | .invalidJson => .ok []
  | .jsonDict cfg => .ok cfg

/-- `save_config` (config.py lines 39-43): `json.dump(config, f, indent=2)`
overwrites the file with the serialized object; `json.load` of the written
document yields the same dict, so the new file state is `jsonDict config`. -/
def save_config (config : Dict) : FileState :=
  .jsonDict config

/-- The filesystem operations the config and CLI modules call:
`Path(p).resolve()` (total, defined on nonexistent paths too) and
`Path(p).is_dir()`. -/
structure FS where
  resolve : String → String
  is_dir : String → Bool

/-- `get_saved_directory` (config.py lines 46-52): `config.get("working_directory")`
followed by `if directory and Path(directory).is_dir()`.  Python truthiness
of the stored value is modelled per constructor; `Path(v)` on a non-string,
non-path value raises `TypeError`. -/
def get_saved_directory (fs : FS) (st : FileState) : Except PyError (Option String) :=
  match load_config st with
  | .error e => .error e
  | .ok config =>
    match dictGet config "working_directory" with
    | none => .ok none
    | some .jnull => .ok none
    | some (.jbool b) => if b then .error .typeError else .ok none
    | some (.jnum n) => if n = 0 then .ok none else .error .typeError
    | some (.jstr s) =>
      if s = "" then .ok none
      else if fs.is_dir s then .ok (some s) else .ok none

/-- `save_directory` (config.py lines 55-59): load the config, set
`config["working_directory"] = str(Path(directory).resolve())`, save. -/
def save_directory (fs : FS) (st : FileState) (directory : String) :
    Except PyError FileState :=
  match load_config st with
  | .error e => .error e
  | .ok config =>
    .ok (save_config (dictSet config "working_directory" (.jstr (fs.resolve directory))))

/-- `clear_directory` (config.py lines 62-66): load the config,
`config.pop("working_directory", None)`, save. -/
def clear_directory (st : FileState) : Except PyError FileState :=
  match load_config st with
  | .error e => .error e
  | .ok config =>
    .ok (save_config (dictPop config "working_directory"))

/-- Modelled from the spec: `set_debounce_ms` is imported by `cli.py`
(`from .config import set_debounce_ms`) but is absent from the provided
`config.py`.  The spec describes the configuration store as holding "a
debounce interval (milliseconds, clamped to [100, 5000]); persisted as a
flat key/value document", so the modelled function clamps its argument
into [100, 5000] and stores it under a debounce key of the same flat
document. -/
def set_debounce_ms (st : FileState) (ms : Int) : Except PyError FileState :=
  match load_config st with
  | .error e => .error e
  | .ok config =>
    .ok (save_config (dictSet config "debounce_ms" (.jnum (max 100 (min 5000 ms)))))

/-! ## The completion stream client (`groq_client.py`)

The Groq SDK is an external collaborator.  A provider stream delivers
chunks shaped like `chunk.choices[0].delta.content`; the SDK's error
classes include `AuthenticationError` (HTTP 401), `RateLimitError`
(HTTP 429), `APIConnectionError` (transport), and further
`APIStatusError` subclasses for other HTTP statuses (e.g. 400 invalid
request).  One invocation of `stream_completion` observes one outcome of
the underlying call: either the stream runs to exhaustion, or it raises
an error after having produced a prefix of chunks. -/

structure Delta where
  content : Option String

structure Choice where
  delta : Delta

structure ProviderChunk where
  choices : List Choice

inductive GroqError where
  | authenticationError
  | rateLimitError
  | apiConnectionError
  | apiStatusError (status : Nat)
  | otherError (msg : String)
deriving DecidableEq

/-- The three error kinds the spec's client contract names: authentication
failure, rate limiting, transport failure. -/
def recoverableKind : GroqError → Bool
  | .authenticationError => true
  | .rateLimitError => true
  | .apiConnectionError => true
  | _ => false

inductive StreamOutcome where
  | success (chunks : List ProviderChunk)
  | failure (produced : List ProviderChunk) (e : GroqError)

/-- The body of the `async for` filter (groq_client.py lines 72-74):
`if chunk.choices and chunk.choices[0].delta.content: yield ...`.
An empty `choices` list is falsy; a `delta.content` of `None` or `""` is
falsy; otherwise `choices[0].delta.content` is yielded. -/
def chunkText (c : ProviderChunk) : Option String :=
  match c.choices with
  | [] => none
  | ch :: _ =>
    match ch.delta.content with
    | none => none
    | some s => if s = "" then none else some s

def errMsg : GroqError → String
  | .authenticationError => "authentication failed"
  | .rateLimitError => "rate limit exceeded"
  | .apiConnectionError => "connection error"
  | .apiStatusError status => "status error " ++ toString status
  | .otherError msg => msg

/-- The observable run of one `stream_completion` invocation: the log
messages emitted through `log_callback`, the text fragments yielded to
the consumer, and the error let escape to the caller (if any). -/
structure StreamRun where
  logs : List String
  yielded : List String
  error : Option GroqError

/-- `GroqClient.stream_completion` (groq_client.py lines 29-80):
`model = model or self.DEFAULT_MODEL`; log the call; iterate the provider
stream yielding filtered chunk texts; log completion on exhaustion; on
any exception, log it and re-raise it unchanged (`except Exception as e:
log(...); raise`).  `logOn` models whether `log_callback` was supplied. -/
def stream_completion (logOn : Bool) (model : Option String) (o : StreamOutcome) :
    StreamRun :=
  let m := match model with
    | some s => if s = "" then "llama-3.3-70b-versatile" else s
    | none => "llama-3.3-70b-versatile"
  let callLog := if logOn then ["Calling Groq API (model: " ++ m ++ ")..."] else []
  match o with
  | .success chunks =>
    { logs := callLog ++ (if logOn then ["Completion finished"] else []),
      yielded := chunks.filterMap chunkText,
      error := none }
  | .failure produced e =>
    { logs := callLog ++ (if logOn then ["Error: " ++ errMsg e] else []),
      yielded := produced.filterMap chunkText,
      error := some e }

/-! ## The command-line interface (`cli.py`)

The CLI's collaborators are bundled into an `Env`: the filesystem, the
on-disk config file, the process environment (API key, `MAGIC_PROMPT_DIR`,
current directory), standard input, the project scanner and prompt
enricher (modules not part of the provided sources — only the messages
and chunks they deliver matter to the claims, so one run's deliveries are
inputs), and the clipboard subprocess.  `print(x)` is modelled as the
write event `x ++ "\n"` on the stream it targets; `print(x, end="")` as
the write event `x`. -/

/-- Python's `str.strip()`: remove whitespace from both ends. -/
def pyStrip (s : String) : String :=
  ⟨((s.data.dropWhile Char.isWhitespace).reverse.dropWhile Char.isWhitespace).reverse⟩

/-- One run of `scan_project` (module not in the provided sources): the
progress messages it sends to `log_callback` and the `total_files` /
`len(signatures)` figures of the `Context` it returns. -/
structure ScanInfo where
  totalFiles : Nat
  sigCount : Nat
  logs : List String

/-- What the enricher's stream does on this run: runs to exhaustion having
yielded `chunks`; or raises an exception rendered as `msg` after yielding
`pre`; or is interrupted by the user (`KeyboardInterrupt`) after `pre`. -/
inductive EnrichOutcome where
  | chunksOk (chunks : List String)
  | raisesError (pre : List String) (msg : String)
  | interrupt (pre : List String)

/-- Outcome of the `pbcopy` subprocess: succeeds, or raises an exception
rendered as `msg`. -/
inductive ClipOutcome where
  | ok
  | fails (msg : String)

structure Env where
  fs : FS
  configFile : FileState
  configPath : String
  jsonDumps : Dict → String
  expand : String → String
  magicPromptDir : Option String
  cwd : String
  stdinIsTty : Bool
  stdinText : String
  apiKey : Option String
  scan : ScanInfo
  enrich : EnrichOutcome
  clip : ClipOutcome

structure Args where
  prompt : List String
  directory : Option String
  save_dir : Option String
  show_config : Bool
  tui : Bool
  quiet : Bool
  debounce : Option Int

/-- `get_working_directory` (cli.py lines 17-35): saved config first, then
`MAGIC_PROMPT_DIR` (expanded, must be a directory), then `os.getcwd()`.
`get_saved_directory` can raise on a corrupt config file, so the result
is an `Except`. -/
def get_working_directory (env : Env) : Except PyError String :=
  match get_saved_directory env.fs env.configFile with
  | .error e => .error e
  | .ok (some saved) => .ok saved
  | .ok none =>
    match env.magicPromptDir with
    | some envDir =>
      let expanded := env.expand envDir
      if env.fs.is_dir expanded then .ok expanded else .ok env.cwd
    | none => .ok env.cwd

/-- `get_prompt_from_input` (cli.py lines 38-48): a non-empty positional
list is joined with spaces; otherwise piped (non-tty) stdin is read and
stripped; otherwise `None`. -/
def get_prompt_from_input (env : Env) (a : Args) : Option String :=
  match a.prompt with
  | [] => if env.stdinIsTty then none else some (pyStrip env.stdinText)
  | _ :: _ => some (String.intercalate " " a.prompt)

/-- The chunk-draining loop of `run_headless` (cli.py lines 85-89):
`result = ""`, then for each chunk `result += chunk` and, unless quiet,
`print(chunk, end="", flush=True)`.  Returns the accumulated result and
the stdout write events. -/
def drainStream (quiet : Bool) : List String → String → List String → String × List String
  | [], acc, ws => (acc, ws)
  | c :: cs, acc, ws => drainStream quiet cs (acc ++ c) (ws ++ if quiet then [] else [c])

inductive HeadlessResult where
  | exited (code : Nat)
  | raised (msg : String)
  | interrupted
  | returned (result : String)
deriving DecidableEq

structure HeadlessRun where
  stdoutWrites : List String
  stderrWrites : List String
  outcome : HeadlessResult

/-- The stderr lines of `run_headless` up to the API-key check (cli.py
lines 53-66): the scanning banner, one indented line per `log_callback`
message, and the `Found ... files ... analyzed` summary; all suppressed
when quiet. -/
def scanBanner (env : Env) (directory : String) (quiet : Bool) : List String :=
  if quiet then [] else
    ["📁 Scanning: " ++ directory ++ "\n"]
    ++ env.scan.logs.map (fun m => "   " ++ m ++ "\n")
    ++ ["✓ Found " ++ toString env.scan.totalFiles ++ " files, "
        ++ toString env.scan.sigCount ++ " analyzed\n"]

/-- `run_headless` (cli.py lines 51-94): print the scanning banner to
stderr; `sys.exit(1)` with a stderr message if `GROQ_API_KEY` is unset or
empty (that message is printed even when quiet); otherwise announce
enrichment (unless quiet), drain the enricher's stream printing chunks to
stdout as they arrive (unless quiet), print a final bare newline to
stdout (unless quiet), and return the accumulated result.  An exception
or `KeyboardInterrupt` from the stream propagates out. -/
def run_headless (env : Env) (prompt : String) (directory : String) (quiet : Bool) :
    HeadlessRun :=
  let banner := scanBanner env directory quiet
  if env.apiKey.getD "" = "" then
    { stdoutWrites := [],
      stderrWrites := banner
        ++ ["Error: GROQ_API_KEY not set. Set it in environment or .env file.\n"],
      outcome := .exited 1 }
  else
    let banner2 := banner ++ if quiet then [] else ["🔮 Enriching prompt...\n"]
    match env.enrich with
    | .chunksOk cs =>
      let r := drainStream quiet cs "" []
      { stdoutWrites := r.2 ++ (if quiet then [] else ["\n"]),
        stderrWrites := banner2,
        outcome := .returned r.1 }
    | .raisesError pre msg =>
      let r := drainStream quiet pre "" []
      { stdoutWrites := r.2, stderrWrites := banner2, outcome := .raised msg }
    | .interrupt pre =>
      let r := drainStream quiet pre "" []
      { stdoutWrites := r.2, stderrWrites := banner2, outcome := .interrupted }

inductive CliMode where
  | exited (code : Nat)
  | launchedTui
  | crashed
deriving DecidableEq

structure CliRun where
  stdoutWrites : List String
  stderrWrites : List String
  mode : CliMode
  finalConfig : FileState

def prependOut (xs : List String) (r : CliRun) : CliRun :=
  { r with stdoutWrites := xs ++ r.stdoutWrites }

/-- `directory = args.directory or get_working_directory()` (cli.py
line 217); an empty-string flag value is falsy. -/
def effectiveDir (env : Env) (a : Args) : Except PyError String :=
  match a.directory with
  | some d => if d = "" then get_working_directory env else .ok d
  | none => get_working_directory env

/-- The one-shot tail of `run_cli` (cli.py lines 216-254): check the
directory, run `run_headless` inside `try`, print the result whole in
quiet mode, attempt the clipboard copy with failures reported only as a
stderr note (suppressed in quiet mode), map `KeyboardInterrupt` to exit
130 and any other exception to exit 1; an uncaught `SystemExit` from
`run_headless` carries its own code. -/
def cliOneShot (env : Env) (a : Args) (cf : FileState) (prompt : String) : CliRun :=
  match effectiveDir env a with
  | .error _ =>
    { stdoutWrites := [], stderrWrites := [], mode := .crashed, finalConfig := cf }
  | .ok directory =>
    if env.fs.is_dir directory then
      let hr := run_headless env prompt directory a.quiet
      match hr.outcome with
      | .exited c =>
        { stdoutWrites := hr.stdoutWrites, stderrWrites := hr.stderrWrites,
          mode := .exited c, finalConfig := cf }
      | .raised msg =>
        { stdoutWrites := hr.stdoutWrites,
          stderrWrites := hr.stderrWrites ++ ["Error: " ++ msg ++ "\n"],
          mode := .exited 1, finalConfig := cf }
      | .interrupted =>
        { stdoutWrites := hr.stdoutWrites,
          stderrWrites := hr.stderrWrites ++ ["\nCancelled.\n"],
          mode := .exited 130, finalConfig := cf }
      | .returned result =>
        let outPrints := if a.quiet then [result ++ "\n"] else []
        match env.clip with
        | .ok =>
          { stdoutWrites := hr.stdoutWrites ++ outPrints,
            stderrWrites := hr.stderrWrites
              ++ (if a.quiet then [] else ["\n✓ Copied to clipboard!\n"]),
            mode := .exited 0, finalConfig := cf }
        | .fails m =>
          { stdoutWrites := hr.stdoutWrites ++ outPrints,
            stderrWrites := hr.stderrWrites
              ++ (if a.quiet then [] else ["\nNote: Could not copy to clipboard: " ++ m ++ "\n"]),
            mode := .exited 0, finalConfig := cf }
    else
      { stdoutWrites := [],
        stderrWrites := ["Error: Directory not found: " ++ directory ++ "\n"],
        mode := .exited 1, finalConfig := cf }

/-- `run_cli` from the TUI check on (cli.py lines 199-214): `--tui`
launches the TUI; otherwise a missing or empty selected prompt launches
the TUI (`if not prompt`); otherwise one-shot mode runs. -/
def cliAfterDebounce (env : Env) (a : Args) (cf : FileState) : CliRun :=
  if a.tui then
    { stdoutWrites := [], stderrWrites := [], mode := .launchedTui, finalConfig := cf }
  else
    match get_prompt_from_input env a with
    | none =>
      { stdoutWrites := [], stderrWrites := [], mode := .launchedTui, finalConfig := cf }
    | some p =>
      if p = "" then
        { stdoutWrites := [], stderrWrites := [], mode := .launchedTui, finalConfig := cf }
      else cliOneShot env a cf p

/-- The `--debounce` handling of `run_cli` (cli.py lines 190-197): when
the flag is present (`is not None`), store the value through
`set_debounce_ms`, announce it, and exit unless `--tui` or a positional
prompt keeps the run going. -/
def cliDebounceStep (env : Env) (a : Args) : CliRun :=
  match a.debounce with
  | none => cliAfterDebounce env a env.configFile
  | some ms =>
    match set_debounce_ms env.configFile ms with
    | .error _ =>
      { stdoutWrites := [], stderrWrites := [], mode := .crashed,
        finalConfig := env.configFile }
    | .ok st' =>
      let msgs := ["✓ Debounce time set to: " ++ toString ms ++ "ms\n"]
      if a.tui = false ∧ a.prompt = [] then
        { stdoutWrites := msgs, stderrWrites := [], mode := .exited 0, finalConfig := st' }
      else prependOut msgs (cliAfterDebounce env a st')

/-- `run_cli` (cli.py lines 161-254): `--show-config` prints the config
and returns; a truthy `--save-dir` validates and persists the directory
and returns; then the `--debounce`, TUI and one-shot stages run in order.
An exception escaping outside the one-shot `try` block aborts the
interpreter (`crashed`). -/
def run_cli (env : Env) (a : Args) : CliRun :=
  if a.show_config then
    match load_config env.configFile with
    | .error _ =>
      { stdoutWrites := [], stderrWrites := [], mode := .crashed,
        finalConfig := env.configFile }
    | .ok config =>
      { stdoutWrites := ["Config file: " ++ env.configPath ++ "\n"]
          ++ (match config with
              | [] => ["No configuration saved.\n"]
              | _ :: _ => [env.jsonDumps config ++ "\n"]),
        stderrWrites := [], mode := .exited 0, finalConfig := env.configFile }
  else
    match a.save_dir with
    | some s =>
      if s = "" then cliDebounceStep env a
      else
        let directory := env.expand s
        if env.fs.is_dir directory then
          match save_directory env.fs env.configFile directory with
          | .error _ =>
            { stdoutWrites := [], stderrWrites := [], mode := .crashed,
              finalConfig := env.configFile }
          | .ok st' =>
            { stdoutWrites := ["✓ Saved default directory: " ++ directory ++ "\n"],
              stderrWrites := [], mode := .exited 0, finalConfig := st' }
        else
          { stdoutWrites := [],
            stderrWrites := ["Error: Directory not found: " ++ directory ++ "\n"],
            mode := .exited 1, finalConfig := env.configFile }
    | none => cliDebounceStep env a

/-! ## Helper lemmas -/

theorem foldl_append_str (cs : List String) : ∀ a b : String,
    List.foldl (fun r s => r ++ s) (a ++ b) cs
      = a ++ List.foldl (fun r s => r ++ s) b cs := by
  induction cs with
  | nil => intro a b; rfl
  | cons c cs ih =>
    intro a b
    simp only [List.foldl, String.append_assoc]
    exact ih a (b ++ c)

theorem join_cons (c : String) (cs : List String) :
    String.join (c :: cs) = c ++ String.join cs := by
  show List.foldl (fun r s => r ++ s) ("" ++ c) cs
      = c ++ List.foldl (fun r s => r ++ s) "" cs
  rw [String.empty_append]
  calc List.foldl (fun r s => r ++ s) c cs
      = List.foldl (fun r s => r ++ s) (c ++ "") cs := by rw [String.append_empty]
    _ = c ++ List.foldl (fun r s => r ++ s) "" cs := foldl_append_str cs c ""

theorem drainStream_eq (quiet : Bool) (cs : List String) : ∀ (acc : String) (ws : List String),
    drainStream quiet cs acc ws
      = (acc ++ String.join cs, ws ++ if quiet then [] else cs) := by
  induction cs with
  | nil =>
    intro acc ws
    cases quiet <;> simp [drainStream, String.join, String.append_empty]
  | cons c cs ih =>
    intro acc ws
    rw [drainStream, ih, join_cons, ← String.append_assoc]
    cases quiet <;> simp

theorem run_headless_key_absent (env : Env) (prompt directory : String) (quiet : Bool)
    (h : env.apiKey.getD "" = "") :
    run_headless env prompt directory quiet
      = { stdoutWrites := [],
          stderrWrites := scanBanner env directory quiet
            ++ ["Error: GROQ_API_KEY not set. Set it in environment or .env file.\n"],
          outcome := .exited 1 } := by
  unfold run_headless
  simp [h]

theorem run_headless_ok (env : Env) (prompt directory : String) (quiet : Bool)
    (cs : List String) (hkey : env.apiKey.getD "" ≠ "") (henr : env.enrich = .chunksOk cs) :
    run_headless env prompt directory quiet
      = { stdoutWrites := if quiet then [] else cs ++ ["\n"],
          stderrWrites := scanBanner env directory quiet
            ++ (if quiet then [] else ["🔮 Enriching prompt...\n"]),
          outcome := .returned (String.join cs) } := by
  unfold run_headless
  rw [henr]
  simp only [hkey, if_neg, drainStream_eq]
  cases quiet <;> simp [String.empty_append]

theorem run_headless_raised (env : Env) (prompt directory : String) (quiet : Bool)
    (pre : List String) (msg : String)
    (hkey : env.apiKey.getD "" ≠ "") (henr : env.enrich = .raisesError pre msg) :
    run_headless env prompt directory quiet
      = { stdoutWrites := if quiet then [] else pre,
          stderrWrites := scanBanner env directory quiet
            ++ (if quiet then [] else ["🔮 Enriching prompt...\n"]),
          outcome := .raised msg } := by
  unfold run_headless
  rw [henr]
  simp only [hkey, if_neg, drainStream_eq]
  cases quiet <;> simp

theorem run_headless_interrupted (env : Env) (prompt directory : String) (quiet : Bool)
    (pre : List String)
    (hkey : env.apiKey.getD "" ≠ "") (henr : env.enrich = .interrupt pre) :
    run_headless env prompt directory quiet
      = { stdoutWrites := if quiet then [] else pre,
          stderrWrites := scanBanner env directory quiet
            ++ (if quiet then [] else ["🔮 Enriching prompt...\n"]),
          outcome := .interrupted } := by
  unfold run_headless
  rw [henr]
  simp only [hkey, if_neg, drainStream_eq]
  cases quiet <;> simp

theorem cliOneShot_finalConfig (env : Env) (a : Args) (cf : FileState) (p : String) :
    (cliOneShot env a cf p).finalConfig = cf := by
  unfold cliOneShot
  dsimp only
  repeat' split
  all_goals rfl

theorem cliOneShot_mode_not_tui (env : Env) (a : Args) (cf : FileState) (p : String) :
    (cliOneShot env a cf p).mode ≠ .launchedTui := by
  unfold cliOneShot
  dsimp only
  repeat' split
  all_goals simp

theorem cliAfterDebounce_finalConfig (env : Env) (a : Args) (cf : FileState) :
    (cliAfterDebounce env a cf).finalConfig = cf := by
  unfold cliAfterDebounce
  split
  · rfl
  · split
    · rfl
    · split
      · rfl
      · exact cliOneShot_finalConfig ..

theorem run_cli_oneShot (env : Env) (a : Args) (p : String)
    (h1 : a.show_config = false) (h2 : a.save_dir = none) (h3 : a.debounce = none)
    (h4 : a.tui = false) (h5 : get_prompt_from_input env a = some p) (h6 : p ≠ "") :
    run_cli env a = cliOneShot env a env.configFile p := by
  unfold run_cli cliDebounceStep cliAfterDebounce
  rw [h2, h3, h5]
  simp [h1, h4, h6]

/-! ## Sample concrete inputs for witnesses -/

def sampleFS : FS :=
  { resolve := fun s => "/abs" ++ s,
    is_dir := fun s => s = "/proj" || s = "/abs/proj" }

def sampleEnv : Env :=
  { fs := sampleFS,
    configFile := .jsonDict [("other", .jnum 7)],
    configPath := "/home/u/.config/magic-prompt/config.json",
    jsonDumps := fun _ => "",
    expand := fun s => s,
    magicPromptDir := none,
    cwd := "/cwd",
    stdinIsTty := true,
    stdinText := "",
    apiKey := some "key",
    scan := { totalFiles := 2, sigCount := 3, logs := [] },
    enrich := .chunksOk ["Hello", " world"],
    clip := .ok }

def sampleArgs : Args :=
  { prompt := ["add", "auth"], directory := some "/proj", save_dir := none,
    show_config := false, tui := false, quiet := false, debounce := none }

/-! ## Claims -/

/-- Claim C5 (code bug): `load_config` is claimed to return the empty
default dictionary and never raise for every on-disk state — missing,
unreadable, or containing invalid JSON.  It does so for a missing file,
an `OSError`, and a `json.JSONDecodeError`, but a config file whose bytes
are not valid UTF-8 is invalid JSON the parser rejects with
`UnicodeDecodeError`, which the `except (json.JSONDecodeError, OSError)`
clause does not catch, so it escapes to the caller. -/
theorem load_config_eval :
    load_config .missing = .ok []
    ∧ load_config .unreadable = .ok []
    ∧ load_config .invalidJson = .ok []
    ∧ load_config .notUtf8 = .error .unicodeDecodeError :=
  ⟨rfl, rfl, rfl, rfl⟩

/-- Claim C9: `save_directory` and `clear_directory` modify only the
`"working_directory"` key — every other key/value pair of the prior
configuration document is present and unchanged afterwards. -/
theorem config_write_frame (fs : FS) (st : FileState) (d k : String) (cfg : Dict)
    (hk : k ≠ "working_directory") (hl : load_config st = .ok cfg) :
    (∃ cfg₁, save_directory fs st d = .ok (.jsonDict cfg₁)
      ∧ dictGet cfg₁ k = dictGet cfg k)
    ∧ (∃ cfg₂, clear_directory st = .ok (.jsonDict cfg₂)
      ∧ dictGet cfg₂ k = dictGet cfg k) := by
  constructor
  · exact ⟨_, by unfold save_directory; rw [hl]; rfl, dictGet_dictSet_ne _ _ _ _ hk⟩
  · exact ⟨_, by unfold clear_directory; rw [hl]; rfl, dictGet_dictPop_ne _ _ _ hk⟩

/-- Witness for C9 at a concrete prior document holding a second key. -/
theorem config_write_frame_witness :
    (∃ cfg₁, save_directory sampleFS (.jsonDict [("other", .jnum 7)]) "/proj"
        = .ok (.jsonDict cfg₁)
      ∧ dictGet cfg₁ "other" = dictGet [("other", .jnum 7)] "other")
    ∧ (∃ cfg₂, clear_directory (.jsonDict [("other", .jnum 7)])
        = .ok (.jsonDict cfg₂)
      ∧ dictGet cfg₂ "other" = dictGet [("other", .jnum 7)] "other") :=
  config_write_frame sampleFS (.jsonDict [("other", .jnum 7)]) "/proj" "other"
    [("other", .jnum 7)] (by decide) rfl

/-- Claim C6: saving an existing directory and reading it back returns
its resolved absolute form (part one; the hypotheses state that `d` is an
existing directory and that resolution of an existing directory yields a
non-empty path to an existing directory, which is how `Path.resolve`
behaves on a real filesystem); and `get_saved_directory` returns `None`
whenever the stored path is absent or no longer an existing directory
(part two). -/
theorem saved_directory_roundtrip :
    (∀ (fs : FS) (st : FileState) (cfg : Dict) (d : String),
      load_config st = .ok cfg →
      fs.is_dir d = true →
      fs.is_dir (fs.resolve d) = true →
      fs.resolve d ≠ "" →
      ∃ st', save_directory fs st d = .ok st'
        ∧ get_saved_directory fs st' = .ok (some (fs.resolve d)))
    ∧ (∀ (fs : FS) (st : FileState) (cfg : Dict),
      load_config st = .ok cfg →
      (dictGet cfg "working_directory" = none
        ∨ ∃ s, dictGet cfg "working_directory" = some (.jstr s) ∧ fs.is_dir s = false) →
      get_saved_directory fs st = .ok none) := by
  constructor
  · intro fs st cfg d hl _hd hres hne
    refine ⟨_, by unfold save_directory; rw [hl], ?_⟩
    simp only [get_saved_directory, save_config, load_config]
    rw [dictGet_dictSet_self]
    simp [hne, hres]
  · intro fs st cfg hl habs
    simp only [get_saved_directory, hl]
    rcases habs with h | ⟨s, hs, hdir⟩
    · rw [h]
    · rw [hs]
      by_cases he : s = "" <;> simp [he, hdir]

/-- Witness for C6: both parts applied on a concrete filesystem where
`/proj` exists and resolves to the existing `/abs/proj`, and on a stored
path that is no longer a directory. -/
theorem saved_directory_roundtrip_witness :
    (∃ st', save_directory sampleFS (.jsonDict []) "/proj" = .ok st'
      ∧ get_saved_directory sampleFS st' = .ok (some "/abs/proj"))
    ∧ get_saved_directory sampleFS
        (.jsonDict [("working_directory", .jstr "/gone")]) = .ok none := by
  constructor
  · exact saved_directory_roundtrip.1 sampleFS (.jsonDict []) [] "/proj"
      rfl (by decide) (by decide) (by decide)
  · exact saved_directory_roundtrip.2 sampleFS
      (.jsonDict [("working_directory", .jstr "/gone")])
      [("working_directory", .jstr "/gone")] rfl
      (Or.inr ⟨"/gone", rfl, by decide⟩)

/-- Claim C3 counterexample: an invocation that fails with an HTTP 400
status error (the SDK's invalid-request class) surfaces exactly that
error, which is none of the three kinds (authentication, rate limit,
transport) the claim restricts failures to. -/
theorem stream_error_kind_cex :
    (stream_completion true none (.failure [] (.apiStatusError 400))).error
      = some (.apiStatusError 400)
    ∧ recoverableKind (.apiStatusError 400) = false :=
  ⟨rfl, rfl⟩

/-- Claim C3 as amended: `stream_completion` re-raises the provider's
error to the caller unchanged — a failing invocation surfaces exactly the
underlying error (so authentication, rate-limit and transport failures
stay distinguishable when they occur), and a successful one surfaces no
error; the client itself does not restrict failures to the three kinds. -/
theorem stream_error_propagation_amended (logOn : Bool) (model : Option String)
    (o : StreamOutcome) :
    (stream_completion logOn model o).error
      = match o with
        | .success _ => none
        | .failure _ e => some e := by
  cases o <;> rfl

theorem chunkText_ne_empty (c : ProviderChunk) (s : String)
    (h : chunkText c = some s) : s ≠ "" := by
  unfold chunkText at h
  rcases c with ⟨choices⟩
  cases choices with
  | nil => exact absurd h (by simp)
  | cons ch rest =>
    rcases ch with ⟨⟨content⟩⟩
    cases content with
    | none => exact absurd h (by simp)
    | some t =>
      by_cases ht : t = ""
      · simp [ht] at h
      · simp [ht] at h
        exact h ▸ ht

/-- Claim C10: every text fragment `stream_completion` yields is a
non-empty string; a provider chunk with an empty `choices` list or with
falsy (`None` or empty) first-choice delta content contributes nothing to
the yielded stream. -/
theorem yielded_chunks_nonempty :
    (∀ (logOn : Bool) (model : Option String) (cs : List ProviderChunk) (s : String),
      s ∈ (stream_completion logOn model (.success cs)).yielded → s ≠ "")
    ∧ (∀ c : ProviderChunk, c.choices = [] → chunkText c = none)
    ∧ (∀ (c : ProviderChunk) (ch : Choice) (rest : List Choice),
      c.choices = ch :: rest →
      (ch.delta.content = none ∨ ch.delta.content = some "") →
      chunkText c = none) := by
  refine ⟨?_, ?_, ?_⟩
  · intro logOn model cs s hs
    have : s ∈ cs.filterMap chunkText := by
      simpa [stream_completion] using hs
    rcases List.mem_filterMap.mp this with ⟨c, _, hc⟩
    exact chunkText_ne_empty c s hc
  · intro c h
    unfold chunkText
    rw [h]
  · intro c ch rest h hfalsy
    simp only [chunkText, h]
    rcases hfalsy with h' | h' <;> simp [h']

/-- Witness for C10 on a concrete stream yielding one fragment. -/
theorem yielded_chunks_nonempty_witness : "Hello" ≠ "" :=
  yielded_chunks_nonempty.1 true none [⟨[⟨⟨some "Hello"⟩⟩]⟩] "Hello"
    (by simp [stream_completion, chunkText])

/-- Claim C2: for every integer passed via the `--debounce` flag (with the
earlier `--show-config` / `--save-dir` branches not taken and a loadable
config file), the value the configuration store persists under the
debounce key is clamped into [100, 5000]. -/
theorem debounce_flag_clamped (env : Env) (a : Args) (ms : Int) (cfg : Dict)
    (h1 : a.show_config = false) (h2 : a.save_dir = none) (h3 : a.debounce = some ms)
    (hl : load_config env.configFile = .ok cfg) :
    ∃ v : Int,
      (run_cli env a).finalConfig = .jsonDict (dictSet cfg "debounce_ms" (.jnum v))
      ∧ dictGet (dictSet cfg "debounce_ms" (.jnum v)) "debounce_ms" = some (.jnum v)
      ∧ 100 ≤ v ∧ v ≤ 5000 := by
  refine ⟨max 100 (min 5000 ms), ?_, dictGet_dictSet_self _ _ _,
    le_max_left _ _, max_le (by norm_num) (min_le_left _ _)⟩
  unfold run_cli cliDebounceStep
  rw [h2, h3]
  simp only [h1, Bool.false_eq_true, if_false, set_debounce_ms, hl, save_config]
  split
  · rfl
  · simp [prependOut, cliAfterDebounce_finalConfig]

/-- Witness for C2 with the out-of-range flag value 9999. -/
theorem debounce_flag_clamped_witness :
    ∃ v : Int,
      (run_cli sampleEnv
          { sampleArgs with prompt := [], directory := none, debounce := some 9999 }).finalConfig
        = .jsonDict (dictSet [("other", .jnum 7)] "debounce_ms" (.jnum v))
      ∧ dictGet (dictSet [("other", .jnum 7)] "debounce_ms" (.jnum v)) "debounce_ms"
          = some (.jnum v)
      ∧ 100 ≤ v ∧ v ≤ 5000 :=
  debounce_flag_clamped sampleEnv
    { sampleArgs with prompt := [], directory := none, debounce := some 9999 }
    9999 [("other", .jnum 7)] rfl rfl rfl rfl

/-- Claim C1 counterexample: on a stream of chunks `["Hello", " world"]`
in non-quiet mode, `run_headless` returns the concatenation, but its
stdout write events are the two chunks followed by a final bare newline
(`print()` at cli.py line 92) — not exactly the chunks. -/
theorem headless_trailing_newline_cex :
    (run_headless sampleEnv "p" "/proj" false).outcome = .returned "Hello world"
    ∧ (run_headless sampleEnv "p" "/proj" false).stdoutWrites = ["Hello", " world", "\n"]
    ∧ (["Hello", " world", "\n"] : List String) ≠ ["Hello", " world"] :=
  ⟨by decide, by decide, by decide⟩

/-- Claim C1 as amended: for every prompt and every finite chunk sequence
the enricher's stream yields (the API key being present), `run_headless`
returns exactly the concatenation of the chunks in order; in non-quiet
mode its stdout write events are exactly those chunks in that order
followed by one final newline, and in quiet mode nothing is written to
stdout. -/
theorem run_headless_stream_amended (env : Env) (prompt directory : String)
    (quiet : Bool) (cs : List String)
    (hkey : env.apiKey.getD "" ≠ "") (henr : env.enrich = .chunksOk cs) :
    (run_headless env prompt directory quiet).outcome = .returned (String.join cs)
    ∧ (quiet = false →
        (run_headless env prompt directory quiet).stdoutWrites = cs ++ ["\n"])
    ∧ (quiet = true →
        (run_headless env prompt directory quiet).stdoutWrites = []) := by
  rw [run_headless_ok env prompt directory quiet cs hkey henr]
  refine ⟨rfl, ?_, ?_⟩ <;> intro hq <;> simp [hq]

/-- Witness for C1's amended theorem at the concrete two-chunk stream. -/
theorem run_headless_stream_amended_witness :
    (run_headless sampleEnv "q" "/proj" false).outcome = .returned "Hello world"
    ∧ (run_headless sampleEnv "q" "/proj" false).stdoutWrites
        = ["Hello", " world", "\n"] := by
  have h := run_headless_stream_amended sampleEnv "q" "/proj" false ["Hello", " world"]
    (by decide) rfl
  exact ⟨h.1.trans (by decide), (h.2.1 rfl).trans (by decide)⟩

theorem cliOneShot_key_absent (env : Env) (a : Args) (cf : FileState) (p dir : String)
    (h7 : effectiveDir env a = .ok dir) (h8 : env.fs.is_dir dir = true)
    (h9 : env.apiKey.getD "" = "") :
    cliOneShot env a cf p
      = { stdoutWrites := [],
          stderrWrites := scanBanner env dir a.quiet
            ++ ["Error: GROQ_API_KEY not set. Set it in environment or .env file.\n"],
          mode := .exited 1, finalConfig := cf } := by
  unfold cliOneShot
  rw [h7]
  simp only [h8, if_true]
  rw [run_headless_key_absent env p dir a.quiet h9]

theorem cliOneShot_returned_clip (env : Env) (a : Args) (cf : FileState) (p dir : String)
    (cs : List String) (note : List String)
    (h7 : effectiveDir env a = .ok dir) (h8 : env.fs.is_dir dir = true)
    (h9 : env.apiKey.getD "" ≠ "") (h10 : env.enrich = .chunksOk cs)
    (hnote : note = match env.clip with
      | .ok => if a.quiet then [] else ["\n✓ Copied to clipboard!\n"]
      | .fails msg =>
        if a.quiet then [] else ["\nNote: Could not copy to clipboard: " ++ msg ++ "\n"]) :
    cliOneShot env a cf p
      = { stdoutWrites := (if a.quiet then [] else cs ++ ["\n"])
            ++ (if a.quiet then [String.join cs ++ "\n"] else []),
          stderrWrites := scanBanner env dir a.quiet
            ++ (if a.quiet then [] else ["🔮 Enriching prompt...\n"]) ++ note,
          mode := .exited 0, finalConfig := cf } := by
  subst hnote
  unfold cliOneShot
  rw [h7]
  simp only [h8, if_true]
  rw [run_headless_ok env p dir a.quiet cs h9 h10]
  cases hc : env.clip <;> simp [hc, List.append_assoc]

theorem cliOneShot_raised (env : Env) (a : Args) (cf : FileState) (p dir : String)
    (pre : List String) (msg : String)
    (h7 : effectiveDir env a = .ok dir) (h8 : env.fs.is_dir dir = true)
    (h9 : env.apiKey.getD "" ≠ "") (h10 : env.enrich = .raisesError pre msg) :
    cliOneShot env a cf p
      = { stdoutWrites := if a.quiet then [] else pre,
          stderrWrites := scanBanner env dir a.quiet
            ++ (if a.quiet then [] else ["🔮 Enriching prompt...\n"])
            ++ ["Error: " ++ msg ++ "\n"],
          mode := .exited 1, finalConfig := cf } := by
  unfold cliOneShot
  rw [h7]
  simp only [h8, if_true]
  rw [run_headless_raised env p dir a.quiet pre msg h9 h10]

theorem cliOneShot_interrupted (env : Env) (a : Args) (cf : FileState) (p dir : String)
    (pre : List String)
    (h7 : effectiveDir env a = .ok dir) (h8 : env.fs.is_dir dir = true)
    (h9 : env.apiKey.getD "" ≠ "") (h10 : env.enrich = .interrupt pre) :
    cliOneShot env a cf p
      = { stdoutWrites := if a.quiet then [] else pre,
          stderrWrites := scanBanner env dir a.quiet
            ++ (if a.quiet then [] else ["🔮 Enriching prompt...\n"])
            ++ ["\nCancelled.\n"],
          mode := .exited 130, finalConfig := cf } := by
  unfold cliOneShot
  rw [h7]
  simp only [h8, if_true]
  rw [run_headless_interrupted env p dir a.quiet pre h9 h10]

theorem cliOneShot_bad_dir (env : Env) (a : Args) (cf : FileState) (p dir : String)
    (h7 : effectiveDir env a = .ok dir) (h8 : env.fs.is_dir dir = false) :
    cliOneShot env a cf p
      = { stdoutWrites := [],
          stderrWrites := ["Error: Directory not found: " ++ dir ++ "\n"],
          mode := .exited 1, finalConfig := cf } := by
  unfold cliOneShot
  rw [h7]
  simp [h8]

/-- Claim C4: with the config-only branches not taken and a non-empty
one-shot prompt selected, `run_cli` exits 0 when enrichment completes
(whatever the clipboard does); exits 1 when the project directory does
not exist; exits 1 when `GROQ_API_KEY` is missing or empty, printing an
error message to stderr, the check happening before any enrichment is
dispatched (the run is independent of the enricher's outcome); exits 1
when the provider raises an error; and exits 130 on `KeyboardInterrupt`. -/
theorem cli_exit_codes :
    (∀ (env : Env) (a : Args) (p dir : String) (cs : List String),
      a.show_config = false → a.save_dir = none → a.debounce = none → a.tui = false →
      get_prompt_from_input env a = some p → p ≠ "" →
      effectiveDir env a = .ok dir → env.fs.is_dir dir = true →
      env.apiKey.getD "" ≠ "" → env.enrich = .chunksOk cs →
      (run_cli env a).mode = .exited 0)
    ∧ (∀ (env : Env) (a : Args) (p dir : String),
      a.show_config = false → a.save_dir = none → a.debounce = none → a.tui = false →
      get_prompt_from_input env a = some p → p ≠ "" →
      effectiveDir env a = .ok dir → env.fs.is_dir dir = false →
      (run_cli env a).mode = .exited 1)
    ∧ (∀ (env : Env) (a : Args) (p dir : String),
      a.show_config = false → a.save_dir = none → a.debounce = none → a.tui = false →
      get_prompt_from_input env a = some p → p ≠ "" →
      effectiveDir env a = .ok dir → env.fs.is_dir dir = true →
      env.apiKey.getD "" = "" →
      (run_cli env a).mode = .exited 1
      ∧ "Error: GROQ_API_KEY not set. Set it in environment or .env file.\n"
          ∈ (run_cli env a).stderrWrites
      ∧ ∀ e₁ e₂ : EnrichOutcome,
          run_cli { env with enrich := e₁ } a = run_cli { env with enrich := e₂ } a)
    ∧ (∀ (env : Env) (a : Args) (p dir : String) (pre : List String) (msg : String),
      a.show_config = false → a.save_dir = none → a.debounce = none → a.tui = false →
      get_prompt_from_input env a = some p → p ≠ "" →
      effectiveDir env a = .ok dir → env.fs.is_dir dir = true →
      env.apiKey.getD "" ≠ "" → env.enrich = .raisesError pre msg →
      (run_cli env a).mode = .exited 1)
    ∧ (∀ (env : Env) (a : Args) (p dir : String) (pre : List String),
      a.show_config = false → a.save_dir = none → a.debounce = none → a.tui = false →
      get_prompt_from_input env a = some p → p ≠ "" →
      effectiveDir env a = .ok dir → env.fs.is_dir dir = true →
      env.apiKey.getD "" ≠ "" → env.enrich = .interrupt pre →
      (run_cli env a).mode = .exited 130) := by
  refine ⟨?_, ?_, ?_, ?_, ?_⟩
  · intro env a p dir cs h1 h2 h3 h4 h5 h6 h7 h8 h9 h10
    rw [run_cli_oneShot env a p h1 h2 h3 h4 h5 h6,
      cliOneShot_returned_clip env a env.configFile p dir cs _ h7 h8 h9 h10 rfl]
  · intro env a p dir h1 h2 h3 h4 h5 h6 h7 h8
    rw [run_cli_oneShot env a p h1 h2 h3 h4 h5 h6,
      cliOneShot_bad_dir env a env.configFile p dir h7 h8]
  · intro env a p dir h1 h2 h3 h4 h5 h6 h7 h8 h9
    have hred := run_cli_oneShot env a p h1 h2 h3 h4 h5 h6
    refine ⟨?_, ?_, ?_⟩
    · rw [hred, cliOneShot_key_absent env a env.configFile p dir h7 h8 h9]
    · rw [hred, cliOneShot_key_absent env a env.configFile p dir h7 h8 h9]
      simp
    · intro e₁ e₂
      have r₁ : run_cli { env with enrich := e₁ } a
          = { stdoutWrites := [],
              stderrWrites := scanBanner env dir a.quiet
                ++ ["Error: GROQ_API_KEY not set. Set it in environment or .env file.\n"],
              mode := .exited 1, finalConfig := env.configFile } :=
        (run_cli_oneShot { env with enrich := e₁ } a p h1 h2 h3 h4 h5 h6).trans
          (cliOneShot_key_absent { env with enrich := e₁ } a env.configFile p dir h7 h8 h9)
      have r₂ : run_cli { env with enrich := e₂ } a
          = { stdoutWrites := [],
              stderrWrites := scanBanner env dir a.quiet
                ++ ["Error: GROQ_API_KEY not set. Set it in environment or .env file.\n"],
              mode := .exited 1, finalConfig := env.configFile } :=
        (run_cli_oneShot { env with enrich := e₂ } a p h1 h2 h3 h4 h5 h6).trans
          (cliOneShot_key_absent { env with enrich := e₂ } a env.configFile p dir h7 h8 h9)
      rw [r₁, r₂]
  · intro env a p dir pre msg h1 h2 h3 h4 h5 h6 h7 h8 h9 h10
    rw [run_cli_oneShot env a p h1 h2 h3 h4 h5 h6,
      cliOneShot_raised env a env.configFile p dir pre msg h7 h8 h9 h10]
  · intro env a p dir pre h1 h2 h3 h4 h5 h6 h7 h8 h9 h10
    rw [run_cli_oneShot env a p h1 h2 h3 h4 h5 h6,
      cliOneShot_interrupted env a env.configFile p dir pre h7 h8 h9 h10]

/-- Witness for C4: the five exit-code scenarios at concrete inputs. -/
theorem cli_exit_codes_witness :
    (run_cli sampleEnv sampleArgs).mode = .exited 0
    ∧ (run_cli { sampleEnv with
        fs := { resolve := fun s => s, is_dir := fun _ => false } } sampleArgs).mode
      = .exited 1
    ∧ (run_cli { sampleEnv with apiKey := none } sampleArgs).mode = .exited 1
    ∧ (run_cli { sampleEnv with enrich := .raisesError [] "boom" } sampleArgs).mode
      = .exited 1
    ∧ (run_cli { sampleEnv with enrich := .interrupt [] } sampleArgs).mode
      = .exited 130 := by
  refine ⟨?_, ?_, ?_, ?_, ?_⟩
  · exact cli_exit_codes.1 sampleEnv sampleArgs "add auth" "/proj" ["Hello", " world"]
      rfl rfl rfl rfl (by decide) (by decide) rfl (by decide) (by decide) rfl
  · exact cli_exit_codes.2.1
      { sampleEnv with fs := { resolve := fun s => s, is_dir := fun _ => false } }
      sampleArgs "add auth" "/proj"
      rfl rfl rfl rfl (by decide) (by decide) rfl (by decide)
  · exact (cli_exit_codes.2.2.1 { sampleEnv with apiKey := none }
      sampleArgs "add auth" "/proj"
      rfl rfl rfl rfl (by decide) (by decide) rfl (by decide) rfl).1
  · exact cli_exit_codes.2.2.2.1 { sampleEnv with enrich := .raisesError [] "boom" }
      sampleArgs "add auth" "/proj" [] "boom"
      rfl rfl rfl rfl (by decide) (by decide) rfl (by decide) (by decide) rfl
  · exact cli_exit_codes.2.2.2.2 { sampleEnv with enrich := .interrupt [] }
      sampleArgs "add auth" "/proj" []
      rfl rfl rfl rfl (by decide) (by decide) rfl (by decide) (by decide) rfl

def pipeEnv : Env := { sampleEnv with stdinIsTty := false, stdinText := " \n  " }

def pipeArgs : Args := { sampleArgs with prompt := [], directory := none }

/-- Claim C7 counterexample: with no positional arguments and piped stdin
holding only whitespace, the selection function returns the stripped
content `""`, but `run_cli` launches interactive mode instead of using it
as a one-shot prompt (`if not prompt` at cli.py line 209 treats the empty
string as no prompt). -/
theorem prompt_selection_cex :
    get_prompt_from_input pipeEnv pipeArgs = some ""
    ∧ (run_cli pipeEnv pipeArgs).mode = .launchedTui :=
  ⟨by decide, by decide⟩

/-- Claim C7 as amended: the prompt is selected with the claimed
precedence (positional arguments joined with single spaces, else stripped
piped stdin, else none), but one-shot mode runs only when the selected
prompt is non-empty: interactive mode is entered exactly when the
selection is `None` or the empty string. -/
theorem prompt_selection_amended (env : Env) (a : Args)
    (h1 : a.show_config = false) (h2 : a.save_dir = none) (h3 : a.debounce = none)
    (h4 : a.tui = false) :
    (a.prompt ≠ [] →
      get_prompt_from_input env a = some (String.intercalate " " a.prompt))
    ∧ (a.prompt = [] → env.stdinIsTty = false →
      get_prompt_from_input env a = some (pyStrip env.stdinText))
    ∧ (a.prompt = [] → env.stdinIsTty = true → get_prompt_from_input env a = none)
    ∧ ((run_cli env a).mode = .launchedTui ↔
      (get_prompt_from_input env a = none ∨ get_prompt_from_input env a = some "")) := by
  refine ⟨?_, ?_, ?_, ?_⟩
  · intro h
    cases hp : a.prompt with
    | nil => exact absurd hp h
    | cons x xs => simp [get_prompt_from_input, hp]
  · intro hp htty
    simp [get_prompt_from_input, hp, htty]
  · intro hp htty
    simp [get_prompt_from_input, hp, htty]
  · have hred : run_cli env a = cliAfterDebounce env a env.configFile := by
      unfold run_cli cliDebounceStep
      rw [h2, h3]
      simp [h1]
    rw [hred]
    unfold cliAfterDebounce
    simp only [h4, Bool.false_eq_true, if_false]
    cases hp : get_prompt_from_input env a with
    | none => simp
    | some s =>
      by_cases hs : s = ""
      · simp [hs]
      · simp [hs, cliOneShot_mode_not_tui]

def promptEnv : Env := { sampleEnv with stdinIsTty := false, stdinText := "  hi " }

/-- Witness for C7's amended theorem: piped stdin `"  hi "` with no
positional arguments selects the stripped prompt `"hi"`. -/
theorem prompt_selection_amended_witness :
    get_prompt_from_input promptEnv pipeArgs = some "hi" :=
  ((prompt_selection_amended promptEnv pipeArgs rfl rfl rfl rfl).2.1 rfl rfl).trans
    (by decide)

/-- Claim C8: on a successful one-shot enrichment the final text reaches
stdout (streamed chunk by chunk plus a final newline in non-quiet mode,
printed whole in quiet mode); the clipboard outcome changes neither the
exit status nor the stdout writes, a clipboard failure being reported
only as a stderr note that quiet mode suppresses. -/
theorem clipboard_failure_nonfatal (env : Env) (a : Args) (p dir : String)
    (cs : List String) (m : String)
    (h1 : a.show_config = false) (h2 : a.save_dir = none) (h3 : a.debounce = none)
    (h4 : a.tui = false) (h5 : get_prompt_from_input env a = some p) (h6 : p ≠ "")
    (h7 : effectiveDir env a = .ok dir) (h8 : env.fs.is_dir dir = true)
    (h9 : env.apiKey.getD "" ≠ "") (h10 : env.enrich = .chunksOk cs) :
    ((run_cli { env with clip := .ok } a).mode = .exited 0
      ∧ (run_cli { env with clip := .fails m } a).mode = .exited 0)
    ∧ (run_cli { env with clip := .fails m } a).stdoutWrites
        = (run_cli { env with clip := .ok } a).stdoutWrites
    ∧ (a.quiet = true →
        (run_cli { env with clip := .fails m } a).stdoutWrites
          = [String.join cs ++ "\n"])
    ∧ (a.quiet = false →
        (run_cli { env with clip := .fails m } a).stdoutWrites = cs ++ ["\n"])
    ∧ (a.quiet = false →
        ("\nNote: Could not copy to clipboard: " ++ m ++ "\n")
          ∈ (run_cli { env with clip := .fails m } a).stderrWrites)
    ∧ (a.quiet = true →
        ("\nNote: Could not copy to clipboard: " ++ m ++ "\n")
          ∉ (run_cli { env with clip := .fails m } a).stderrWrites) := by
  have r₁ : run_cli { env with clip := ClipOutcome.ok } a
      = { stdoutWrites := (if a.quiet then [] else cs ++ ["\n"])
            ++ (if a.quiet then [String.join cs ++ "\n"] else []),
          stderrWrites := scanBanner env dir a.quiet
            ++ (if a.quiet then [] else ["🔮 Enriching prompt...\n"])
            ++ (if a.quiet then [] else ["\n✓ Copied to clipboard!\n"]),
          mode := .exited 0, finalConfig := env.configFile } :=
    (run_cli_oneShot { env with clip := .ok } a p h1 h2 h3 h4 h5 h6).trans
      (cliOneShot_returned_clip { env with clip := .ok } a env.configFile p dir cs
        (if a.quiet then [] else ["\n✓ Copied to clipboard!\n"]) h7 h8 h9 h10 rfl)
  have r₂ : run_cli { env with clip := ClipOutcome.fails m } a
      = { stdoutWrites := (if a.quiet then [] else cs ++ ["\n"])
            ++ (if a.quiet then [String.join cs ++ "\n"] else []),
          stderrWrites := scanBanner env dir a.quiet
            ++ (if a.quiet then [] else ["🔮 Enriching prompt...\n"])
            ++ (if a.quiet then []
                else ["\nNote: Could not copy to clipboard: " ++ m ++ "\n"]),
          mode := .exited 0, finalConfig := env.configFile } :=
    (run_cli_oneShot { env with clip := .fails m } a p h1 h2 h3 h4 h5 h6).trans
      (cliOneShot_returned_clip { env with clip := .fails m } a env.configFile p dir cs
        (if a.quiet then []
          else ["\nNote: Could not copy to clipboard: " ++ m ++ "\n"])
        h7 h8 h9 h10 rfl)
  rw [r₁, r₂]
  refine ⟨⟨rfl, rfl⟩, rfl, ?_, ?_, ?_, ?_⟩
  · intro hq
    simp [hq]
  · intro hq
    simp [hq]
  · intro hq
    simp [hq]
  · intro hq
    simp [hq, scanBanner]

/-- Witness for C8: a failing clipboard at a concrete successful run. -/
theorem clipboard_failure_nonfatal_witness :
    (run_cli { sampleEnv with clip := .fails "boom" } sampleArgs).mode = .exited 0
    ∧ (run_cli { sampleEnv with clip := .fails "boom" } sampleArgs).stdoutWrites
        = ["Hello", " world", "\n"]
    ∧ "\nNote: Could not copy to clipboard: boom\n"
        ∈ (run_cli { sampleEnv with clip := .fails "boom" } sampleArgs).stderrWrites := by
  have h := clipboard_failure_nonfatal sampleEnv sampleArgs "add auth" "/proj"
    ["Hello", " world"] "boom" rfl rfl rfl rfl (by decide) (by decide) rfl
    (by decide) (by decide) rfl
  exact ⟨h.1.2, h.2.2.2.1 rfl, h.2.2.2.2.1 rfl⟩

end MagicPrompt
